import Mathlib

/-!
Verification of the query-building core of the signal-analytics dashboard.

Each definition below is a shallow embedding of a function from the
repository (file and line references in the doc comments).  Numeric
warehouse measures are modelled as rationals, SQL NULL as `Option`,
Python strings as Lean `String`, and fallible parsing as `Option`.
-/

/- ### Date model: `datetime.strptime(s, "%Y-%m-%d")`
`src/utils/query_utils.py` lines 149-151 and 180-181 parse both dates with
`datetime.strptime(date_str, "%Y-%m-%d")`.  CPython matches `%Y` as exactly
four digits, `%m` and `%d` as one or two digits, requires the whole string
to be consumed, and the `datetime` constructor then validates
`1 <= year`, `1 <= month <= 12`, and `1 <= day <= days_in_month`. -/

structure Date where
  year : Nat
  month : Nat
  day : Nat
deriving DecidableEq, Repr

def digitsToNat (cs : List Char) : Nat :=
  cs.foldl (fun a c => 10 * a + (c.toNat - 48)) 0

def isLeap (y : Nat) : Bool :=
  (y % 4 = 0 && y % 100 ≠ 0) || y % 400 = 0

def daysInMonth (y m : Nat) : Nat :=
  if m = 2 then (if isLeap y then 29 else 28)
  else if m = 4 ∨ m = 6 ∨ m = 9 ∨ m = 11 then 30
  else 31

/-- Parse one or two leading decimal digits (greedy), returning the value and
the rest of the input; fails when the first character is not a digit. -/
def parse12 : List Char → Option (Nat × List Char)
  | c1 :: c2 :: rest =>
    if c1.isDigit then
      if c2.isDigit then some (10 * (c1.toNat - 48) + (c2.toNat - 48), rest)
      else some (c1.toNat - 48, c2 :: rest)
    else none
  | [c1] => if c1.isDigit then some (c1.toNat - 48, []) else none
  | [] => none

def parseDateChars : List Char → Option Date
  | a :: b :: c :: d :: '-' :: rest =>
    if a.isDigit && b.isDigit && c.isDigit && d.isDigit then
      let y := digitsToNat [a, b, c, d]
      match parse12 rest with
      | some (m, '-' :: rest2) =>
        match parse12 rest2 with
        | some (dd, []) =>
          if 1 ≤ y ∧ 1 ≤ m ∧ m ≤ 12 ∧ 1 ≤ dd ∧ dd ≤ daysInMonth y m then
            some ⟨y, m, dd⟩
          else none
        | _ => none
      | _ => none
    else none
  | _ => none

/-- Embedding of `datetime.strptime(date_str, "%Y-%m-%d")`: `some` on success,
`none` where Python raises `ValueError`. -/
def parseDate (s : String) : Option Date :=
  parseDateChars s.data

/-- Number of leap years among the years `1 .. y-1` (proleptic Gregorian). -/
def leapsBefore (y : Nat) : Nat :=
  (y - 1) / 4 - (y - 1) / 100 + (y - 1) / 400

def daysBeforeMonth (y m : Nat) : Nat :=
  ((List.range (m - 1)).map (fun i => daysInMonth y (i + 1))).sum

/-- Proleptic-Gregorian ordinal day number (as `date.toordinal` in Python);
`(end - start).days` for two midnight datetimes equals the difference of
their ordinals. -/
def toOrdinal (d : Date) : Nat :=
  365 * (d.year - 1) + leapsBefore d.year + daysBeforeMonth d.year d.month + d.day

/-- Embedding of `get_aggregation_level` (`src/utils/query_utils.py` lines
138-162): the day difference `(end - start).days` selects the rollup tier,
and any parse failure falls back to `"none"` (the raw tier). -/
def get_aggregation_level (start_date end_date : String) : String :=
  match parseDate start_date, parseDate end_date with
  | some s, some e =>
    let days : Int := (toOrdinal e : Int) - (toOrdinal s : Int)
    if days < 4 then "none"
    else if days ≤ 7 then "hourly"
    else "daily"
  | _, _ => "none"

/-- Embedding of `get_aggregation_table` (`src/utils/query_utils.py` lines
165-192): same tier rule, returning the physical table name, with the base
table as the parse-failure fallback. -/
def get_aggregation_table (start_date end_date : String) : String :=
  match parseDate start_date, parseDate end_date with
  | some s, some e =>
    let days : Int := (toOrdinal e : Int) - (toOrdinal s : Int)
    if days < 4 then "TRAVEL_TIME_ANALYTICS"
    else if days ≤ 7 then "TRAVEL_TIME_HOURLY_AGG"
    else "TRAVEL_TIME_DAILY_AGG"
  | _, _ => "TRAVEL_TIME_ANALYTICS"

/-- C1: for every pair of parsable dates the rollup tier selector returns the
Raw tier (level `"none"`, table `TRAVEL_TIME_ANALYTICS`) when the whole-day
span is below 4, the Hourly tier when it is between 4 and 7, and the Daily
tier when it exceeds 7; spans of exactly 3, 4, 7 and 8 days resolve to Raw,
Hourly, Hourly and Daily respectively. -/
theorem rollup_tier_selection (s e : String) (ds de : Date)
    (hs : parseDate s = some ds) (he : parseDate e = some de) :
    (((toOrdinal de : Int) - (toOrdinal ds : Int) < 4 →
        get_aggregation_level s e = "none" ∧
        get_aggregation_table s e = "TRAVEL_TIME_ANALYTICS") ∧
     (4 ≤ (toOrdinal de : Int) - (toOrdinal ds : Int) ∧
        (toOrdinal de : Int) - (toOrdinal ds : Int) ≤ 7 →
        get_aggregation_level s e = "hourly" ∧
        get_aggregation_table s e = "TRAVEL_TIME_HOURLY_AGG") ∧
     (7 < (toOrdinal de : Int) - (toOrdinal ds : Int) →
        get_aggregation_level s e = "daily" ∧
        get_aggregation_table s e = "TRAVEL_TIME_DAILY_AGG")) ∧
    (get_aggregation_level "2024-01-01" "2024-01-04" = "none" ∧
     get_aggregation_level "2024-01-01" "2024-01-05" = "hourly" ∧
     get_aggregation_level "2024-01-01" "2024-01-08" = "hourly" ∧
     get_aggregation_level "2024-01-01" "2024-01-09" = "daily" ∧
     get_aggregation_table "2024-01-01" "2024-01-04" = "TRAVEL_TIME_ANALYTICS" ∧
     get_aggregation_table "2024-01-01" "2024-01-05" = "TRAVEL_TIME_HOURLY_AGG" ∧
     get_aggregation_table "2024-01-01" "2024-01-08" = "TRAVEL_TIME_HOURLY_AGG" ∧
     get_aggregation_table "2024-01-01" "2024-01-09" = "TRAVEL_TIME_DAILY_AGG") := by
  constructor
  · refine ⟨fun hlt => ?_, fun hmid => ?_, fun hgt => ?_⟩ <;>
      simp only [get_aggregation_level, get_aggregation_table, hs, he] <;>
      · constructor <;> · split_ifs <;> first | rfl | omega
  · exact ⟨by decide, by decide, by decide, by decide,
      by decide, by decide, by decide, by decide⟩

/-- Witness for `rollup_tier_selection` at a concrete 3-day span. -/
theorem rollup_tier_selection_witness :
    get_aggregation_level "2024-03-01" "2024-03-04" = "none" ∧
    get_aggregation_table "2024-03-01" "2024-03-04" = "TRAVEL_TIME_ANALYTICS" :=
  ((rollup_tier_selection "2024-03-01" "2024-03-04"
      ⟨2024, 3, 1⟩ ⟨2024, 3, 4⟩ (by decide) (by decide)).1).1 (by decide)

/-- C9: when at least one of the two date strings does not parse as a
YYYY-MM-DD date, the tier selector does not raise and falls back to the Raw
tier (level `"none"`, table `TRAVEL_TIME_ANALYTICS`). -/
theorem rollup_unparsable_fallback (s e : String)
    (h : parseDate s = none ∨ parseDate e = none) :
    get_aggregation_level s e = "none" ∧
    get_aggregation_table s e = "TRAVEL_TIME_ANALYTICS" := by
  rcases h with h | h <;>
    · constructor <;>
        · simp only [get_aggregation_level, get_aggregation_table, h] <;> split <;> simp_all

/-- Witness for `rollup_unparsable_fallback` on a concrete malformed date. -/
theorem rollup_unparsable_fallback_witness :
    get_aggregation_level "not-a-date" "2024-01-09" = "none" ∧
    get_aggregation_table "not-a-date" "2024-01-09" = "TRAVEL_TIME_ANALYTICS" :=
  rollup_unparsable_fallback "not-a-date" "2024-01-09" (Or.inl (by decide))

/- ### Travel-time summary endpoint: dimension pass and in-process assembly
`src/routes/api_travel_time.py`, `get_travel_time_summary` (lines 124-317),
with helpers from `src/utils/query_utils.py`.  Warehouse rows are modelled
with `Option` fields for nullable columns; the analytics measures are
rationals. -/

structure DimRow where
  id : Option String
  latitude : Option Rat
  longitude : Option Rat
  approach : Option Bool
  valid_geometry : Option Bool
  xd : Option Int
deriving DecidableEq, Repr

structure AggRow where
  xd : Option Int
  travel_time_index : Option Rat
  avg_travel_time : Option Rat
  record_count : Option Int
deriving DecidableEq, Repr

/-- Embedding of `extract_xd_values` (`src/utils/query_utils.py` lines
81-98): collect the non-null XD values of the dimension rows, in order. -/
def extract_xd_values (dim_result : List DimRow) : List Int :=
  dim_result.filterMap (fun r => r.xd)

/-- Embedding of `create_xd_lookup_dict` (`src/utils/query_utils.py` lines
118-135) applied to the analytics result: a Python dict mapping each
non-null XD to its row, later rows overwriting earlier ones.  Modelled as
the lookup function of that dict. -/
def create_xd_lookup_dict (rows : List AggRow) : Int → Option AggRow :=
  rows.foldl
    (fun dict r =>
      match r.xd with
      | some x => fun k => if k = x then some r else dict k
      | none => dict)
    (fun _ => none)

/-- `analytics_dict.get(xd, {})` at line 280 of `src/routes/api_travel_time.py`:
the dict holds only non-null integer keys, so a null XD never hits. -/
def lookup_analytics (dict : Int → Option AggRow) (xd : Option Int) : Option AggRow :=
  match xd with
  | some x => dict x
  | none => none

/-- `analytics.get(COL, 0)` for a rational measure: when the XD had no
aggregate entry the lookup produced the empty dict and the default `0` is
used; otherwise the row value (possibly NULL) is returned unchanged. -/
def agg_or_zero_rat (a : Option AggRow) (f : AggRow → Option Rat) : Option Rat :=
  match a with
  | none => some 0
  | some r => f r

def agg_or_zero_int (a : Option AggRow) (f : AggRow → Option Int) : Option Int :=
  match a with
  | none => some 0
  | some r => f r

structure SummaryRow where
  id : Option String
  latitude : Option Rat
  longitude : Option Rat
  approach : Option Bool
  valid_geometry : Option Bool
  xd : Option Int
  travel_time_index : Option Rat
  avg_travel_time : Option Rat
  record_count : Option Int
deriving DecidableEq, Repr

/-- Embedding of the per-row assembly in the loop at lines 277-290 of
`src/routes/api_travel_time.py`. -/
def assemble_summary_row (dict : Int → Option AggRow) (r : DimRow) : SummaryRow :=
  let analytics := lookup_analytics dict r.xd
  { id := r.id
    latitude := r.latitude
    longitude := r.longitude
    approach := r.approach
    valid_geometry := r.valid_geometry
    xd := r.xd
    travel_time_index := agg_or_zero_rat analytics (fun a => a.travel_time_index)
    avg_travel_time := agg_or_zero_rat analytics (fun a => a.avg_travel_time)
    record_count := agg_or_zero_int analytics (fun a => a.record_count) }

/-- Embedding of the in-process join at lines 257-302 of
`src/routes/api_travel_time.py`: one output row is appended per dimension
row, looking each XD up in the analytics dict. -/
def assemble_summary_rows (dim_result : List DimRow)
    (dict : Int → Option AggRow) : List SummaryRow :=
  dim_result.map (assemble_summary_row dict)

/-- The endpoint's response: either the pre-defined empty Arrow table for a
named schema (`create_empty_arrow_response`, `src/utils/arrow_utils.py`
lines 93-113) or a populated table. -/
inductive SummaryResponse
  | emptyResponse (schema : String)
  | tableResponse (rows : List SummaryRow)
deriving DecidableEq, Repr

/-- Embedding of the control flow of `get_travel_time_summary`
(`src/routes/api_travel_time.py` lines 156-313): early exit with the empty
`travel_time_summary` table when the dimension result is empty (line 166)
or when no row carries a non-null XD (line 180); only otherwise is the
fact-aggregation query issued (its result is the `analytics_result`
parameter here) and the assembly performed.  The boolean records whether
the fact-aggregation round trip was issued. -/
def get_travel_time_summary_core (dim_result : List DimRow)
    (analytics_result : List AggRow) : SummaryResponse × Bool :=
  if dim_result.isEmpty then
    (SummaryResponse.emptyResponse "travel_time_summary", false)
  else
    let xd_values := extract_xd_values dim_result
    if xd_values.isEmpty then
      (SummaryResponse.emptyResponse "travel_time_summary", false)
    else
      (SummaryResponse.tableResponse
        (assemble_summary_rows dim_result (create_xd_lookup_dict analytics_result)),
       true)

/-- C2: the in-process assembly of the travel-time summary produces exactly
one output row per dimension row, for every aggregate result (including the
empty one); and any dimension row whose XD has no aggregate entry gets its
three aggregate columns set to the number 0, never NULL. -/
theorem summary_assembly_totality (dim_result : List DimRow)
    (analytics_result : List AggRow) :
    (assemble_summary_rows dim_result
        (create_xd_lookup_dict analytics_result)).length = dim_result.length ∧
    (∀ (i : Nat) (hi : i < dim_result.length)
        (hi' : i < (assemble_summary_rows dim_result
          (create_xd_lookup_dict analytics_result)).length),
      lookup_analytics (create_xd_lookup_dict analytics_result)
          (dim_result.get ⟨i, hi⟩).xd = none →
      ((assemble_summary_rows dim_result
          (create_xd_lookup_dict analytics_result)).get ⟨i, hi'⟩).travel_time_index
          = some 0 ∧
      ((assemble_summary_rows dim_result
          (create_xd_lookup_dict analytics_result)).get ⟨i, hi'⟩).avg_travel_time
          = some 0 ∧
      ((assemble_summary_rows dim_result
          (create_xd_lookup_dict analytics_result)).get ⟨i, hi'⟩).record_count
          = some 0) := by
  refine ⟨List.length_map _ _, ?_⟩
  intro i hi hi' hmiss
  simp only [List.get_eq_getElem] at hmiss
  refine ⟨?_, ?_, ?_⟩ <;>
    simp [assemble_summary_rows, assemble_summary_row, hmiss,
      agg_or_zero_rat, agg_or_zero_int]

/-- Witness for `summary_assembly_totality`: one dimension row whose XD is
absent from an empty aggregate result. -/
theorem summary_assembly_totality_witness :
    (assemble_summary_rows
        [{ id := some "S1", latitude := some 1, longitude := some 2,
           approach := none, valid_geometry := none, xd := some 5 }]
        (create_xd_lookup_dict [])).length = 1 ∧
    ((assemble_summary_rows
        [{ id := some "S1", latitude := some 1, longitude := some 2,
           approach := none, valid_geometry := none, xd := some 5 }]
        (create_xd_lookup_dict [])).get ⟨0, by decide⟩).travel_time_index
        = some 0 ∧
    ((assemble_summary_rows
        [{ id := some "S1", latitude := some 1, longitude := some 2,
           approach := none, valid_geometry := none, xd := some 5 }]
        (create_xd_lookup_dict [])).get ⟨0, by decide⟩).avg_travel_time
        = some 0 ∧
    ((assemble_summary_rows
        [{ id := some "S1", latitude := some 1, longitude := some 2,
           approach := none, valid_geometry := none, xd := some 5 }]
        (create_xd_lookup_dict [])).get ⟨0, by decide⟩).record_count
        = some 0 :=
  ⟨(summary_assembly_totality
      [{ id := some "S1", latitude := some 1, longitude := some 2,
         approach := none, valid_geometry := none, xd := some 5 }] []).1,
   (summary_assembly_totality
      [{ id := some "S1", latitude := some 1, longitude := some 2,
         approach := none, valid_geometry := none, xd := some 5 }] []).2
      0 (by decide) (by decide) rfl⟩

/-- C10: when the dimension query returns zero rows, or only rows with a
null XD, the travel-time summary endpoint returns the empty
`travel_time_summary` table and never issues the fact-aggregation query. -/
theorem summary_early_exit (dim_result : List DimRow)
    (analytics_result : List AggRow)
    (h : dim_result = [] ∨ ∀ r ∈ dim_result, r.xd = none) :
    get_travel_time_summary_core dim_result analytics_result
      = (SummaryResponse.emptyResponse "travel_time_summary", false) := by
  rcases h with h | h
  · simp [get_travel_time_summary_core, h]
  · have hxd : extract_xd_values dim_result = [] := by
      simp only [extract_xd_values, List.filterMap_eq_nil_iff]
      exact h
    unfold get_travel_time_summary_core
    split
    · rfl
    · simp [hxd]

/-- Witness for `summary_early_exit`: a single dimension row with null XD. -/
theorem summary_early_exit_witness :
    get_travel_time_summary_core
        [{ id := some "S2", latitude := some 3, longitude := some 4,
           approach := some true, valid_geometry := some false, xd := none }]
        [{ xd := some 7, travel_time_index := some 1, avg_travel_time := some 2,
           record_count := some 3 }]
      = (SummaryResponse.emptyResponse "travel_time_summary", false) :=
  summary_early_exit _ _ (Or.inr (by decide))

/- ### Before/after summary comparison
`src/routes/api_before_after.py`, `get_before_after_summary` (lines
100-125).  The CTEs `before_data` and `after_data` each produce one row per
entity key (`GROUP BY s.ID`) carrying a nullable average; the final SELECT
full-outer-joins them on the key and coalesces missing sides to 0.  The
rows of the two CTEs are modelled as `(key, value)` lists; `ORDER BY ID`
only permutes the output and is not modelled. -/

def coalesceQ : Option Rat → Rat
  | none => 0
  | some q => q

/-- Row pairs produced by `FROM before_data b FULL OUTER JOIN after_data a
ON b.ID = a.ID`: every before-row paired with its matching after-rows (or
NULL when none match), plus every unmatched after-row paired with NULL. -/
def full_outer_join (before_data after_data : List (String × Option Rat)) :
    List (Option (String × Option Rat) × Option (String × Option Rat)) :=
  (before_data.flatMap (fun b =>
    let ms := after_data.filter (fun a => a.1 == b.1)
    if ms = [] then [(some b, none)]
    else ms.map (fun a => (some b, some a)))) ++
  ((after_data.filter (fun a => before_data.all (fun b => b.1 != a.1))).map
    (fun a => ((none : Option (String × Option Rat)), some a)))

structure BASummaryRow where
  id : Option String
  tti_before : Rat
  tti_after : Rat
  tti_diff : Rat
deriving DecidableEq, Repr

/-- The final SELECT of the comparison query: `COALESCE(b.ID, a.ID)`,
`COALESCE(b.TTI_BEFORE, 0)`, `COALESCE(a.TTI_AFTER, 0)` and
`COALESCE(a.TTI_AFTER, 0) - COALESCE(b.TTI_BEFORE, 0)`. -/
def ba_select_row
    (p : Option (String × Option Rat) × Option (String × Option Rat)) :
    BASummaryRow :=
  { id :=
      match p.1 with
      | some b => some b.1
      | none =>
        match p.2 with
        | some a => some a.1
        | none => none
    tti_before := coalesceQ (p.1.bind (fun b => b.2))
    tti_after := coalesceQ (p.2.bind (fun a => a.2))
    tti_diff := coalesceQ (p.2.bind (fun a => a.2))
      - coalesceQ (p.1.bind (fun b => b.2)) }

/-- The result set of the before/after summary comparison query. -/
def get_before_after_summary_rows
    (before_data after_data : List (String × Option Rat)) : List BASummaryRow :=
  (full_outer_join before_data after_data).map ba_select_row

lemma mem_foj_of_mem_before {bl : List (String × Option Rat)}
    (al : List (String × Option Rat)) {b : String × Option Rat} (hb : b ∈ bl) :
    ∃ p ∈ full_outer_join bl al, p.1 = some b := by
  by_cases hm : al.filter (fun a => a.1 == b.1) = []
  · refine ⟨(some b, none), ?_, rfl⟩
    refine List.mem_append.mpr (Or.inl ?_)
    refine List.mem_flatMap.mpr ⟨b, hb, ?_⟩
    simp only [hm, if_pos]
    exact List.mem_singleton.mpr rfl
  · obtain ⟨a, ha⟩ := List.exists_mem_of_ne_nil _ hm
    refine ⟨(some b, some a), ?_, rfl⟩
    refine List.mem_append.mpr (Or.inl ?_)
    refine List.mem_flatMap.mpr ⟨b, hb, ?_⟩
    rw [if_neg hm]
    exact List.mem_map_of_mem _ ha

/-- C3: in the before/after summary, the delta column always equals
`COALESCE(after, 0) - COALESCE(before, 0)` (so it is always defined), a
missing before or after side is coalesced to 0, every entity present in
either window appears in the output, and with identical before and after
aggregates every output row has delta 0. -/
theorem before_after_delta_coalesce :
    (∀ p : Option (String × Option Rat) × Option (String × Option Rat),
        (ba_select_row p).tti_diff
          = (ba_select_row p).tti_after - (ba_select_row p).tti_before) ∧
    (∀ p : Option (String × Option Rat) × Option (String × Option Rat),
        p.1 = none → (ba_select_row p).tti_before = 0) ∧
    (∀ p : Option (String × Option Rat) × Option (String × Option Rat),
        p.2 = none → (ba_select_row p).tti_after = 0) ∧
    (∀ bl al : List (String × Option Rat), ∀ k : String,
        (k ∈ bl.map Prod.fst ∨ k ∈ al.map Prod.fst) →
        ∃ r ∈ get_before_after_summary_rows bl al, r.id = some k) ∧
    (∀ l : List (String × Option Rat), (l.map Prod.fst).Nodup →
        ∀ r ∈ get_before_after_summary_rows l l, r.tti_diff = 0) := by
  refine ⟨fun p => rfl, ?_, ?_, ?_, ?_⟩
  · rintro ⟨b, a⟩ h
    cases b
    · simp [ba_select_row, coalesceQ]
    · exact Option.noConfusion h
  · rintro ⟨b, a⟩ h
    cases a
    · simp [ba_select_row, coalesceQ]
    · exact Option.noConfusion h
  · intro bl al k hk
    have key : ∀ b ∈ bl, ∃ r ∈ get_before_after_summary_rows bl al,
        r.id = some b.1 := by
      intro b hb
      obtain ⟨p, hpmem, hp1⟩ := mem_foj_of_mem_before al hb
      refine ⟨ba_select_row p, List.mem_map_of_mem _ hpmem, ?_⟩
      rcases p with ⟨b', a'⟩
      simp only at hp1
      subst hp1
      rfl
    rcases hk with hk | hk
    · rcases List.mem_map.mp hk with ⟨b, hb, rfl⟩
      exact key b hb
    · rcases List.mem_map.mp hk with ⟨a, ha, rfl⟩
      by_cases hb : ∃ b ∈ bl, b.1 = a.1
      · rcases hb with ⟨b, hbmem, hbeq⟩
        rw [← hbeq]
        exact key b hbmem
      · have hfa : a ∈ al.filter (fun a0 => bl.all (fun b => b.1 != a0.1)) := by
          refine List.mem_filter.mpr ⟨ha, ?_⟩
          rw [List.all_eq_true]
          intro b hbmem
          rw [bne_iff_ne]
          intro he
          exact hb ⟨b, hbmem, he⟩
        refine ⟨ba_select_row (none, some a), ?_, rfl⟩
        exact List.mem_map_of_mem _
          (List.mem_append.mpr (Or.inr (List.mem_map_of_mem _ hfa)))
  · intro l hnd r hr
    rcases List.mem_map.mp hr with ⟨p, hp, rfl⟩
    rcases List.mem_append.mp hp with hp | hp
    · rcases List.mem_flatMap.mp hp with ⟨b, hb, hpb⟩
      have hbf : b ∈ l.filter (fun a => a.1 == b.1) :=
        List.mem_filter.mpr ⟨hb, by simp⟩
      rw [if_neg (List.ne_nil_of_mem hbf)] at hpb
      rcases List.mem_map.mp hpb with ⟨a, haf, rfl⟩
      have haf' := List.mem_filter.mp haf
      have haeq : a.1 = b.1 := by simpa using haf'.2
      have hab : a = b := List.inj_on_of_nodup_map hnd haf'.1 hb haeq
      subst hab
      simp [ba_select_row, sub_self]
    · rcases List.mem_map.mp hp with ⟨a, haf, rfl⟩
      have haf' := List.mem_filter.mp haf
      have := List.all_eq_true.mp haf'.2 a haf'.1
      rw [bne_iff_ne] at this
      exact absurd rfl this

/-- Witness for `before_after_delta_coalesce`: identical windows on a
one-entity aggregate give delta 0 on the concrete joined row. -/
theorem before_after_delta_coalesce_witness :
    (ba_select_row (some ("A", some 3), some ("A", some 3))).tti_diff = 0 :=
  before_after_delta_coalesce.2.2.2.2 [("A", some 3)] (by decide)
    (ba_select_row (some ("A", some 3), some ("A", some 3)))
    (List.mem_singleton.mpr rfl)

/- ### Python string primitives on character lists
`str.strip`, `str.startswith`, slicing and `str.replace` are modelled on
`List Char` (Lean's `String.trim` etc. do not reduce well in the kernel). -/

def stripChars (cs : List Char) : List Char :=
  ((cs.dropWhile Char.isWhitespace).reverse.dropWhile Char.isWhitespace).reverse

/-- Python `s.strip()`. -/
def pyStrip (s : String) : String :=
  ⟨stripChars s.data⟩

/-- Python `s.startswith(pre)`. -/
def pyStartsWith (s pre : String) : Bool :=
  pre.data.isPrefixOf s.data

/-- Python `s[n:]`. -/
def pyDropStr (s : String) (n : Nat) : String :=
  ⟨s.data.drop n⟩

def replaceChars (s pat rep : List Char) : List Char :=
  if hp : pat = [] then s
  else
    match s with
    | [] => []
    | c :: rest =>
      if pat.isPrefixOf (c :: rest) then
        rep ++ replaceChars ((c :: rest).drop pat.length) pat rep
      else
        c :: replaceChars rest pat rep
termination_by s.length
decreasing_by
  · simp only [List.length_drop]
    have : 0 < pat.length := List.length_pos.mpr hp
    simp only [List.length_cons]
    omega
  · simp only [List.length_cons]
    omega

/-- Python `s.replace(pat, rep)` (leftmost, non-overlapping; never called
with an empty pattern in the embedded code). -/
def pyReplace (s pat rep : String) : String :=
  ⟨replaceChars s.data pat.data rep.data⟩

/- ### Time-of-day filter
`src/utils/query_utils.py`, `build_time_of_day_filter` (lines 221-252).
The callers pass request parameters through `int(...)`, which is the
identity on the integer inputs the claim ranges over; an absent parameter
is `None`. -/

/-- Python `f"{n:02d}"` for the checked hour range `0 <= n <= 23`. -/
def pad2 (n : Int) : String :=
  if n < 10 then "0" ++ toString n else toString n

/-- Embedding of `build_time_of_day_filter`: empty fragment when a bound is
absent, out of `0..23`, or the window is the full day `(0, 23)`; otherwise
a bounded BETWEEN predicate on `TIME_15MIN`. -/
def build_time_of_day_filter (start_hour end_hour : Option Int) : String :=
  match start_hour, end_hour with
  | some sh, some eh =>
    if 0 ≤ sh ∧ sh ≤ 23 ∧ 0 ≤ eh ∧ eh ≤ 23 then
      if sh = 0 ∧ eh = 23 then ""
      else " AND TIME_15MIN BETWEEN \x27" ++ pad2 sh ++ ":00:00\x27 AND \x27"
        ++ pad2 eh ++ ":59:59\x27"
    else ""
  | _, _ => ""

lemma data_ne_nil_append (s t : String) (h : s.data ≠ []) : (s ++ t).data ≠ [] := by
  rw [String.data_append]
  intro he
  exact h (List.append_eq_nil.mp he).1

lemma append_ne_empty_left (s t : String) (h : s.data ≠ []) : s ++ t ≠ "" := by
  intro he
  have hd : (s ++ t).data = ("" : String).data := by rw [he]
  rw [String.data_append] at hd
  exact h (List.append_eq_nil.mp hd).1

/-- C6: the time-of-day filter is the empty fragment exactly when a bound is
absent, a bound lies outside `0..23`, or the window is the full day
`(0, 23)`; every other valid window yields the bounded BETWEEN predicate
from `start:00:00` to `end:59:59` on `TIME_15MIN`. -/
theorem time_of_day_filter_window (sh eh : Option Int) :
    (build_time_of_day_filter sh eh = "" ↔
      sh = none ∨ eh = none ∨
      (∃ a b : Int, sh = some a ∧ eh = some b ∧
        ¬(0 ≤ a ∧ a ≤ 23 ∧ 0 ≤ b ∧ b ≤ 23)) ∨
      (sh = some 0 ∧ eh = some 23)) ∧
    (∀ a b : Int, 0 ≤ a → a ≤ 23 → 0 ≤ b → b ≤ 23 → ¬(a = 0 ∧ b = 23) →
      build_time_of_day_filter (some a) (some b)
        = " AND TIME_15MIN BETWEEN \x27" ++ pad2 a ++ ":00:00\x27 AND \x27"
          ++ pad2 b ++ ":59:59\x27") := by
  constructor
  · constructor
    · intro h
      match sh, eh with
      | none, _ => exact Or.inl rfl
      | some a, none => exact Or.inr (Or.inl rfl)
      | some a, some b =>
        refine Or.inr (Or.inr ?_)
        simp only [build_time_of_day_filter] at h
        split_ifs at h with h1 h2
        · exact Or.inr ⟨by rw [h2.1], by rw [h2.2]⟩
        · exact absurd h (append_ne_empty_left _ _
            (data_ne_nil_append _ _ (data_ne_nil_append _ _
              (data_ne_nil_append _ _ (by decide)))))
        · exact Or.inl ⟨a, b, rfl, rfl, h1⟩
    · intro h
      rcases h with h | h | ⟨a, b, ha, hb, hr⟩ | ⟨h0, h23⟩
      · rw [h]; rfl
      · rw [h]; cases sh <;> rfl
      · rw [ha, hb]
        simp only [build_time_of_day_filter]
        rw [if_neg hr]
      · rw [h0, h23]; rfl
  · intro a b h1 h2 h3 h4 h5
    simp only [build_time_of_day_filter]
    rw [if_pos ⟨h1, h2, h3, h4⟩, if_neg h5]

/-- Witness for `time_of_day_filter_window` at the window (15, 18). -/
theorem time_of_day_filter_window_witness :
    build_time_of_day_filter (some 15) (some 18)
      = " AND TIME_15MIN BETWEEN \x2715:00:00\x27 AND \x2718:59:59\x27" :=
  (time_of_day_filter_window (some 15) (some 18)).2 15 18
    (by decide) (by decide) (by decide) (by decide) (by decide)

/- ### Day-of-week filter
`src/utils/query_utils.py`, `build_day_of_week_filter` (lines 195-218).
The routes pass `request.args.getlist("day_of_week")`, a list of strings,
through `int(d)`; a `ValueError` anywhere in the comprehension is caught
and yields the empty fragment. -/

def parseDigitsAll (cs : List Char) : Option Nat :=
  if cs = [] then none
  else if cs.all Char.isDigit then some (digitsToNat cs) else none

/-- Model of Python `int(s)` on plain decimal literals: optional surrounding
whitespace, optional sign, decimal digits; `none` where `int` raises
`ValueError`. -/
def pyInt (s : String) : Option Int :=
  match (pyStrip s).data with
  | '-' :: ds => (parseDigitsAll ds).map (fun n => -(n : Int))
  | '+' :: ds => (parseDigitsAll ds).map (fun n => (n : Int))
  | ds => (parseDigitsAll ds).map (fun n => (n : Int))

/-- Embedding of `build_day_of_week_filter`. -/
def build_day_of_week_filter (day_of_week : Option (List String)) : String :=
  match day_of_week with
  | none => ""
  | some l =>
    if l = [] then ""
    else
      match l.mapM pyInt with
      | none => ""
      | some ints =>
        let days := ints.filter (fun d => decide (1 ≤ d ∧ d ≤ 7))
        if days = [] then ""
        else
          " INNER JOIN DIM_DATE d ON t.DATE_ONLY = d.DATE_ONLY AND d.DAY_OF_WEEK_ISO IN ("
            ++ String.intercalate ", " (days.map toString) ++ ")"

lemma mapM_pyInt_eq_none_of_mem {l : List String} {d : String}
    (hd : d ∈ l) (hn : pyInt d = none) : l.mapM pyInt = none := by
  induction l with
  | nil => cases hd
  | cons x xs ih =>
    rw [List.mapM_cons]
    rcases List.mem_cons.mp hd with rfl | hd'
    · rw [hn]; rfl
    · cases hx : pyInt x
      · rfl
      · rw [ih hd']; rfl

/-- C7: the day-of-week filter is the empty fragment when the input is
absent or empty; when every entry parses and at least one parsed value lies
in `1..7` it is a `DIM_DATE` join whose ISO-weekday membership list is
exactly the in-range parsed values; and a malformed list — any non-numeric
entry, or all values outside `1..7` — silently yields the empty fragment. -/
theorem day_of_week_filter_cases :
    (build_day_of_week_filter none = "" ∧
     build_day_of_week_filter (some []) = "") ∧
    (∀ l : List String, ∀ d ∈ l, pyInt d = none →
      build_day_of_week_filter (some l) = "") ∧
    (∀ (l : List String) (ints : List Int), l.mapM pyInt = some ints →
      ints.filter (fun d => decide (1 ≤ d ∧ d ≤ 7)) = [] →
      build_day_of_week_filter (some l) = "") ∧
    (∀ (l : List String) (ints : List Int), l.mapM pyInt = some ints →
      ints.filter (fun d => decide (1 ≤ d ∧ d ≤ 7)) ≠ [] →
      build_day_of_week_filter (some l)
        = " INNER JOIN DIM_DATE d ON t.DATE_ONLY = d.DATE_ONLY AND d.DAY_OF_WEEK_ISO IN ("
          ++ String.intercalate ", "
              ((ints.filter (fun d => decide (1 ≤ d ∧ d ≤ 7))).map toString)
          ++ ")") := by
  refine ⟨⟨rfl, rfl⟩, ?_, ?_, ?_⟩
  · intro l d hd hn
    simp only [build_day_of_week_filter]
    split_ifs with h
    · rfl
    · rw [mapM_pyInt_eq_none_of_mem hd hn]
  · intro l ints hm hf
    simp only [build_day_of_week_filter]
    split_ifs with h
    · rfl
    · rw [hm]
      simp only [hf, if_pos]
  · intro l ints hm hf
    have hl : l ≠ [] := by
      intro he
      subst he
      simp only [List.mapM_nil, pure, Option.some.injEq] at hm
      subst hm
      exact hf rfl
    simp only [build_day_of_week_filter]
    rw [if_neg hl, hm]
    simp only [if_neg hf]

/-- Witness for `day_of_week_filter_cases`: numeric entries 2 and 9 keep
exactly the in-range value 2. -/
theorem day_of_week_filter_cases_witness :
    build_day_of_week_filter (some ["2", "9"])
      = " INNER JOIN DIM_DATE d ON t.DATE_ONLY = d.DATE_ONLY AND d.DAY_OF_WEEK_ISO IN (2)" :=
  day_of_week_filter_cases.2.2.2 ["2", "9"] [2, 9] (by decide) (by decide)

/- ### Legend capping
`src/utils/query_utils.py`, `build_legend_filter` (lines 297-374): renders
the containment subquery that caps the legend entities.  The builder is
embedded verbatim on strings; the result sets of the two subquery shapes it
emits are modelled as list functions (`legend_top_xds`,
`legend_distinct_values`). -/

/-- Python `pat in s` (substring test). -/
def listContains (s pat : List Char) : Bool :=
  match s with
  | [] => pat.isPrefixOf []
  | c :: rest => pat.isPrefixOf (c :: rest) || listContains rest pat

def strContainsB (s pat : String) : Bool :=
  listContains s.data pat.data

/-- Embedding of `build_legend_filter`.  The `time_filter` and `dow_join`
parameters are accepted and ignored exactly as in the source. -/
def build_legend_filter (legend_field : String) (max_entities : Nat)
    (xd_filter start_date end_date time_filter dow_join : String) : String :=
  if legend_field = "" then ""
  else if legend_field = "XD" then
    let where_clause :=
      if xd_filter ≠ "" then
        let c := pyStrip xd_filter
        let c := if pyStartsWith c "AND " then pyStrip (pyDropStr c 4) else c
        "WHERE " ++ c
      else ""
    let where_clause :=
      if start_date ≠ "" ∧ end_date ≠ "" then
        let date_filter := "DATE_ONLY BETWEEN \x27" ++ start_date
          ++ "\x27 AND \x27" ++ end_date ++ "\x27"
        if where_clause ≠ "" then where_clause ++ " AND " ++ date_filter
        else "WHERE " ++ date_filter
      else where_clause
    " AND t.XD IN (SELECT XD\n            FROM TRAVEL_TIME_ANALYTICS\n            "
      ++ where_clause
      ++ "\n            GROUP BY XD\n            ORDER BY COUNT(*) DESC\n            "
      ++ ("LIMIT " ++ toString max_entities) ++ ")"
  else
    let where_clause :=
      if xd_filter ≠ "" then
        let c := pyStrip xd_filter
        let c := if pyStartsWith c "AND " then pyStrip (pyDropStr c 4) else c
        let c := pyReplace c "t.XD" "sub_s.XD"
        let c :=
          if c ≠ "" ∧ strContainsB c "sub_s.XD" = false ∧ strContainsB c "XD IN" = true
          then pyReplace c "XD IN" "sub_s.XD IN"
          else c
        if c ≠ "" then "WHERE " ++ c else ""
      else ""
    " AND s." ++ legend_field ++ " IN (SELECT DISTINCT sub_s." ++ legend_field
      ++ "\n        FROM DIM_SIGNALS_XD sub_s\n        " ++ where_clause
      ++ "\n        " ++ ("LIMIT " ++ toString max_entities) ++ ")"

/-- Result set of the XD-branch subquery `SELECT XD FROM
TRAVEL_TIME_ANALYTICS <restrictions> GROUP BY XD ORDER BY COUNT(*) DESC
LIMIT n`, where `xds` is the XD column of the fact rows passing the WHERE
restrictions (active date range and XD filter): the distinct XDs ranked by
row count, descending, capped at `n`. -/
def legend_top_xds (xds : List Int) (n : Nat) : List Int :=
  ((xds.dedup).mergeSort (fun a b => decide (xds.count b ≤ xds.count a))).take n

/-- Result set of the non-XD-branch subquery `SELECT DISTINCT sub_s.FIELD
FROM DIM_SIGNALS_XD sub_s <entity restriction> LIMIT n`, where `vals` is
the FIELD column of the dimension rows passing the restriction. -/
def legend_distinct_values (vals : List String) (n : Nat) : List String :=
  vals.dedup.take n

lemma infix_str_left {pat : List Char} {s : String} (t : String)
    (h : pat <:+: s.data) : pat <:+: (s ++ t).data := by
  obtain ⟨u, v, huv⟩ := h
  exact ⟨u, v ++ t.data, by rw [String.data_append, ← huv]; simp⟩

lemma infix_str_right (s : String) {pat : List Char} {t : String}
    (h : pat <:+: t.data) : pat <:+: (s ++ t).data := by
  obtain ⟨u, v, huv⟩ := h
  exact ⟨s.data ++ u, v, by rw [String.data_append, ← huv]; simp⟩

lemma infix_str_self (s : String) : s.data <:+: s.data :=
  ⟨[], [], by simp⟩

/-- C4: the legend cap: both subquery shapes return at most `max_entities`
values and return the whole candidate pool when it already fits; the XD
shape ranks the pool by record count, descending; and the generated SQL
restricts via `LIMIT max_entities` against `TRAVEL_TIME_ANALYTICS` (with
`ORDER BY COUNT(*) DESC`) for the XD field, and via `SELECT DISTINCT` on
`DIM_SIGNALS_XD` for every other non-empty field. -/
theorem legend_capping :
    (∀ (xds : List Int) (n : Nat), (legend_top_xds xds n).length ≤ n) ∧
    (∀ (xds : List Int) (n : Nat), xds.dedup.length ≤ n →
      (legend_top_xds xds n).Perm xds.dedup) ∧
    (∀ (xds : List Int) (n : Nat),
      (legend_top_xds xds n).Pairwise (fun a b => xds.count b ≤ xds.count a)) ∧
    (∀ (vals : List String) (n : Nat),
      (legend_distinct_values vals n).length ≤ n) ∧
    (∀ (vals : List String) (n : Nat), vals.dedup.length ≤ n →
      legend_distinct_values vals n = vals.dedup) ∧
    (∀ (n : Nat) (xdf sd ed tf dj : String),
      "TRAVEL_TIME_ANALYTICS".data
          <:+: (build_legend_filter "XD" n xdf sd ed tf dj).data ∧
      "ORDER BY COUNT(*) DESC".data
          <:+: (build_legend_filter "XD" n xdf sd ed tf dj).data ∧
      ("LIMIT " ++ toString n).data
          <:+: (build_legend_filter "XD" n xdf sd ed tf dj).data) ∧
    (∀ (field : String) (n : Nat) (xdf sd ed tf dj : String),
      field ≠ "" → field ≠ "XD" →
      "DIM_SIGNALS_XD".data
          <:+: (build_legend_filter field n xdf sd ed tf dj).data ∧
      "SELECT DISTINCT sub_s.".data
          <:+: (build_legend_filter field n xdf sd ed tf dj).data ∧
      ("LIMIT " ++ toString n).data
          <:+: (build_legend_filter field n xdf sd ed tf dj).data) := by
  refine ⟨?_, ?_, ?_, ?_, ?_, ?_, ?_⟩
  · intro xds n
    simp [legend_top_xds, List.length_take]
  · intro xds n h
    unfold legend_top_xds
    rw [List.take_of_length_le]
    · exact List.mergeSort_perm _ _
    · rw [(List.mergeSort_perm _ _).length_eq]
      exact h
  · intro xds n
    have hsorted :
        (xds.dedup.mergeSort (fun a b => decide (xds.count b ≤ xds.count a))).Pairwise
          (fun a b => (decide (xds.count b ≤ xds.count a)) = true) := by
      refine List.sorted_mergeSort ?_ ?_ _
      · intro a b c hab hbc
        simp only [decide_eq_true_eq] at *
        omega
      · intro a b
        simp only [Bool.or_eq_true, decide_eq_true_eq]
        omega
    have := hsorted.sublist (List.take_sublist n _)
    exact this.imp (fun h => by simpa using h)
  · intro vals n
    simp [legend_distinct_values, List.length_take]
  · intro vals n h
    exact List.take_of_length_le h
  · intro n xdf sd ed tf dj
    refine ⟨?_, ?_, ?_⟩
    · exact infix_str_left _ (infix_str_left _ (infix_str_left _
        (infix_str_left _ (by decide))))
    · exact infix_str_left _ (infix_str_left _ (infix_str_right _ (by decide)))
    · exact infix_str_left _ (infix_str_right _ (infix_str_self _))
  · intro field n xdf sd ed tf dj hne hnxd
    simp only [build_legend_filter, if_neg hne, if_neg hnxd]
    refine ⟨?_, ?_, ?_⟩
    · exact infix_str_left _ (infix_str_left _ (infix_str_left _
        (infix_str_left _ (infix_str_right _ (by decide)))))
    · exact infix_str_left _ (infix_str_left _ (infix_str_left _
        (infix_str_left _ (infix_str_left _ (infix_str_left _
          (infix_str_right _ (by decide)))))))
    · exact infix_str_left _ (infix_str_right _ (infix_str_self _))

/-- Witness for `legend_capping`: a three-row fact column with two distinct
XDs fits a cap of 5 and is returned in full. -/
theorem legend_capping_witness :
    (legend_top_xds [1, 1, 2] 5).Perm (List.dedup [1, 1, 2]) :=
  legend_capping.2.1 [1, 1, 2] 5 (by decide)

/- ### Entity-selection strategy
`src/routes/api_before_after.py`, `get_before_after_aggregated` (lines
312-334) dispatches between a direct XD membership filter, a
dimension-join predicate, and no restriction; the route-local
`build_where_clause` (lines 342-360) then composes the chosen fragments. -/

/-- Embedding of `build_xd_filter` (`src/utils/query_utils.py` lines
101-115). -/
def build_xd_filter (xd_values : List Int) : String :=
  if xd_values = [] then ""
  else " AND XD IN (" ++ String.intercalate ", " (xd_values.map toString) ++ ")"

/-- Python truthiness of an optional request-arg string. -/
def truthyOpt : Option String → Bool
  | none => false
  | some s => decide (s ≠ "")

/-- The condition of the `elif` branch at line 324:
`signal_ids or maintained_by != 'all' or approach or
(valid_geometry and valid_geometry != 'all')`. -/
def dim_filters_set (signal_ids : List String) (maintained_by : String)
    (approach valid_geometry : Option String) : Bool :=
  !signal_ids.isEmpty || decide (maintained_by ≠ "all") || truthyOpt approach
    || (truthyOpt valid_geometry && decide (valid_geometry ≠ some "all"))

/-- Modelled from the spec: `build_filter_joins_and_where` is imported from
`utils.query_utils` by the before/after, anomaly and changepoint routes but
its definition is not among the source files under `src/`.  Per §4.2 of the
spec it renders the JoinPredicate strategy, "pushing the filter into a join
against the dimension table rather than materializing a large ID list": a
dimension join clause plus an attribute predicate over the signal-ID list,
maintainer, approach and geometry validity.  Only the shape of its output
matters for the theorems below. -/
def build_filter_joins_and_where (signal_ids : List String)
    (maintained_by : String) (approach valid_geometry : Option String) :
    String × String :=
  let preds :=
    (if signal_ids ≠ [] then
      ["s.ID IN (\x27" ++ String.intercalate "\x27, \x27" signal_ids ++ "\x27)"]
     else []) ++
    (if maintained_by ≠ "all" then
      ["s.MAINTAINED_BY = \x27" ++ maintained_by ++ "\x27"]
     else []) ++
    (match approach with
     | some a =>
       if a ≠ "" then
         ["xd.APPROACH = " ++ (if a = "true" then "TRUE" else "FALSE")]
       else []
     | none => []) ++
    (match valid_geometry with
     | some v =>
       if v = "valid" then ["xd.VALID_GEOMETRY = TRUE"]
       else if v = "invalid" then ["xd.VALID_GEOMETRY = FALSE"]
       else []
     | none => [])
  ("INNER JOIN DIM_SIGNALS_XD xd ON t.XD = xd.XD\nINNER JOIN DIM_SIGNALS s ON xd.ID = s.ID",
   String.intercalate " AND " preds)

/-- Embedding of the strategy dispatch at lines 317-334 of
`src/routes/api_before_after.py`.  `xd_segments` arrives as decimal strings
converted by `int(...)`; it is modelled as the converted integer list.
Returns `(xd_filter, filter_join, filter_where)`. -/
def resolve_entity_strategy (xd_segments : List Int) (signal_ids : List String)
    (maintained_by : String) (approach valid_geometry : Option String) :
    String × String × String :=
  if xd_segments ≠ [] then
    (build_xd_filter xd_segments, "", "")
  else if dim_filters_set signal_ids maintained_by approach valid_geometry then
    let jw := build_filter_joins_and_where signal_ids maintained_by approach valid_geometry
    ("", jw.1, jw.2)
  else
    ("", "", "")

/-- Embedding of the route-local `build_where_clause` (lines 342-360 of
`src/routes/api_before_after.py`). -/
def build_where_clause_ba (start_date end_date xd_filter filter_where
    time_filter : String) (remove_anomalies : Bool) : String :=
  let where_parts := ["t.DATE_ONLY BETWEEN \x27" ++ start_date
    ++ "\x27 AND \x27" ++ end_date ++ "\x27"]
  let where_parts :=
    if xd_filter ≠ "" then
      let c := pyStrip xd_filter
      let c := if pyStartsWith c "AND " then pyDropStr c 4 else c
      where_parts ++ [pyReplace c "XD" "t.XD"]
    else where_parts
  let where_parts :=
    if filter_where ≠ "" then where_parts ++ [filter_where] else where_parts
  let where_parts :=
    if time_filter ≠ "" then
      let c := pyStrip time_filter
      let c := if pyStartsWith c "AND " then pyDropStr c 4 else c
      where_parts ++ [pyReplace c "TIME_15MIN" "t.TIME_15MIN"]
    else where_parts
  let where_parts :=
    if remove_anomalies then where_parts ++ ["t.IS_ANOMALY = FALSE"]
    else where_parts
  String.intercalate " AND " where_parts

/-- C5: exactly one entity-selection strategy is applied: a non-empty
explicit XD list yields the direct membership filter and ignores all
dimension-attribute predicates; otherwise a set dimension filter yields the
dimension-join predicate (with no XD filter); otherwise all fragments are
empty, and the composed WHERE clause is just the date bound — the
match-everything predicate, never match-nothing. -/
theorem entity_strategy_selection (xds : List Int) (sids : List String)
    (mb : String) (ap vg : Option String) :
    (xds ≠ [] →
      resolve_entity_strategy xds sids mb ap vg = (build_xd_filter xds, "", "") ∧
      build_xd_filter xds ≠ "" ∧
      (∀ (sids2 : List String) (mb2 : String) (ap2 vg2 : Option String),
        resolve_entity_strategy xds sids2 mb2 ap2 vg2
          = resolve_entity_strategy xds sids mb ap vg)) ∧
    (xds = [] → dim_filters_set sids mb ap vg = true →
      resolve_entity_strategy xds sids mb ap vg
        = ("", (build_filter_joins_and_where sids mb ap vg).1,
               (build_filter_joins_and_where sids mb ap vg).2)) ∧
    (xds = [] → dim_filters_set sids mb ap vg = false →
      resolve_entity_strategy xds sids mb ap vg = ("", "", "") ∧
      (∀ sd ed : String,
        build_where_clause_ba sd ed "" "" "" false
          = "t.DATE_ONLY BETWEEN \x27" ++ sd ++ "\x27 AND \x27" ++ ed ++ "\x27")) := by
  refine ⟨?_, ?_, ?_⟩
  · intro hne
    refine ⟨?_, ?_, ?_⟩
    · simp only [resolve_entity_strategy, if_pos hne]
    · unfold build_xd_filter
      rw [if_neg (by simpa using hne)]
      exact append_ne_empty_left _ _ (data_ne_nil_append _ _ (by decide))
    · intro sids2 mb2 ap2 vg2
      simp only [resolve_entity_strategy, if_pos hne]
  · intro hxe hdim
    subst hxe
    simp [resolve_entity_strategy, hdim]
  · intro hxe hdim
    subst hxe
    constructor
    · simp [resolve_entity_strategy, hdim]
    · intro sd ed
      rfl

/-- Witness for `entity_strategy_selection`: an explicit two-segment list
takes the direct-filter branch whatever the dimension attributes are. -/
theorem entity_strategy_selection_witness :
    resolve_entity_strategy [101, 202] ["S9"] "city" (some "true") (some "valid")
      = (build_xd_filter [101, 202], "", "") ∧
    build_xd_filter [101, 202] ≠ "" ∧
    (∀ (sids2 : List String) (mb2 : String) (ap2 vg2 : Option String),
      resolve_entity_strategy [101, 202] sids2 mb2 ap2 vg2
        = resolve_entity_strategy [101, 202] ["S9"] "city" (some "true") (some "valid")) :=
  entity_strategy_selection [101, 202] ["S9"] "city" (some "true") (some "valid")
    |>.1 (by decide)

/- ### Authentication-error retry handler
`src/utils/error_handler.py`, `handle_auth_error_retry` (lines 9-56), and
`src/database.py`, `is_auth_error` (lines 20-35).  Every call site in the
repository invokes the handler without arguments beyond the query function,
so `max_retries` is always its default 2. -/

/-- Embedding of `is_auth_error`: substring match on the lowercased error
text against the five known session/authentication-expiry signatures. -/
def is_auth_error (e : String) : Bool :=
  let s := e.data.map Char.toLower
  listContains s "authentication token has expired".data ||
  listContains s "08001".data ||
  listContains s "390111".data ||
  listContains s "session no longer exists".data ||
  listContains s "new login required".data

inductive RetryOutcome (α : Type) where
  | ok (a : α)
  | raised (e : String)
deriving DecidableEq, Repr

/-- Embedding of the loop of `handle_auth_error_retry` (lines 23-56).
`query_func i` is the outcome of the i-th execution of the wrapped query
(0-based; an `Except.error` models a raised exception); `session_ok i`
tells whether the reconnection attempted before the i-th execution succeeds
(`get_snowflake_session`, line 40).  The fuel is the remaining number of
loop iterations.  Returns the outcome, the number of query executions, and
the number of `invalidate_session()` calls. -/
def retry_loop {α : Type} (query_func : Nat → Except String α)
    (session_ok : Nat → Bool) (max_retries : Nat) :
    Nat → Nat → RetryOutcome α × Nat × Nat
  | 0, _ => (RetryOutcome.raised "Query failed after all retry attempts", 0, 0)
  | fuel + 1, attempt =>
    match query_func attempt with
    | Except.ok a => (RetryOutcome.ok a, 1, 0)
    | Except.error e =>
      if is_auth_error e then
        if attempt < max_retries then
          if session_ok (attempt + 1) then
            let r := retry_loop query_func session_ok max_retries fuel (attempt + 1)
            (r.1, r.2.1 + 1, r.2.2 + 1)
          else
            (RetryOutcome.raised
              "Failed to reconnect to database after authentication error", 1, 1)
        else (RetryOutcome.raised e, 1, 0)
      else (RetryOutcome.raised e, 1, 0)

/-- Embedding of `handle_auth_error_retry(query_func, max_retries=2)`:
`for attempt in range(max_retries + 1)`. -/
def handle_auth_error_retry {α : Type} (query_func : Nat → Except String α)
    (session_ok : Nat → Bool) (max_retries : Nat := 2) :
    RetryOutcome α × Nat × Nat :=
  retry_loop query_func session_ok max_retries (max_retries + 1) 0

lemma retry_loop_calls_le {α : Type} (f : Nat → Except String α)
    (sess : Nat → Bool) (mr : Nat) :
    ∀ fuel attempt, (retry_loop f sess mr fuel attempt).2.1 ≤ fuel := by
  intro fuel
  induction fuel with
  | zero => intro attempt; simp [retry_loop]
  | succ n ih =>
    intro attempt
    rw [retry_loop]
    split
    · simp
    · split_ifs with h1 h2 h3
      · have := ih (attempt + 1)
        simp only [Prod.snd]
        omega
      · simp
      · simp
      · simp

/-- C8 counterexample: with `max_retries` left at its default 2 — as at
every call site in the repository — a query that keeps failing with an
authentication-expiry error is executed three times, i.e. retried twice,
so "at most one retry" is false. -/
theorem auth_retry_counterexample :
    (handle_auth_error_retry
        (fun _ => (Except.error "Authentication token has expired" : Except String Unit))
        (fun _ => true)).2.1 = 3 ∧
    ¬ ((handle_auth_error_retry
        (fun _ => (Except.error "Authentication token has expired" : Except String Unit))
        (fun _ => true)).2.1 ≤ 2) := by
  constructor
  · decide
  · decide

/-- C8 (amended): the handler executes the wrapped query at most
`max_retries + 1` times — i.e. at most `max_retries` retries, with
`max_retries = 2` at every call site; a failure not classified as a
session/authentication expiry is re-raised immediately after the first
execution with no retry and no session invalidation; a first-execution
success is returned immediately; and an auth-classified failure with
retries remaining triggers at least one session invalidation. -/
theorem auth_retry_behaviour {α : Type} (f : Nat → Except String α)
    (sess : Nat → Bool) (mr : Nat) :
    ((handle_auth_error_retry f sess mr).2.1 ≤ mr + 1) ∧
    (∀ e, f 0 = Except.error e → is_auth_error e = false →
      handle_auth_error_retry f sess mr = (RetryOutcome.raised e, 1, 0)) ∧
    (∀ a, f 0 = Except.ok a →
      handle_auth_error_retry f sess mr = (RetryOutcome.ok a, 1, 0)) ∧
    (∀ e, f 0 = Except.error e → is_auth_error e = true → 0 < mr →
      1 ≤ (handle_auth_error_retry f sess mr).2.2) := by
  refine ⟨retry_loop_calls_le f sess mr (mr + 1) 0, ?_, ?_, ?_⟩
  · intro e hf he
    unfold handle_auth_error_retry
    rw [retry_loop, hf]
    simp [he]
  · intro a hf
    unfold handle_auth_error_retry
    rw [retry_loop, hf]
  · intro e hf he hmr
    unfold handle_auth_error_retry
    rw [retry_loop, hf]
    by_cases h3 : sess 1 = true
    · simp [he, hmr, h3]
    · simp [he, hmr, h3]

/-- Witness for `auth_retry_behaviour`: a non-auth failure is re-raised
with a single execution and no invalidation. -/
theorem auth_retry_behaviour_witness :
    handle_auth_error_retry (fun _ => (Except.error "type mismatch" : Except String Unit))
        (fun _ => true) 2
      = (RetryOutcome.raised "type mismatch", 1, 0) :=
  (auth_retry_behaviour (fun _ => (Except.error "type mismatch" : Except String Unit))
      (fun _ => true) 2).2.1 "type mismatch" rfl (by decide)
